import Mathlib

/-!
Shallow embedding of the SolanaAutonomy treasury controller.

The repository contains two variants of the `SolanaAutonomy` class:

* the Mayan-Finance variant at `src/skills/solana-terminator/solana-autonomy.js`
  (namespace `Mayan` below, plus the Jupiter native-swap path), and
* the Jumper.exchange variant at `src/unnamed/part_000`
  (namespace `Jumper` below).

Network collaborators (balance oracle, quote providers, the submission
endpoint) are modelled as an environment record holding the response each
network call would produce during the invocation; `Except String` models a
JavaScript promise rejection / thrown error, and each function additionally
returns the ordered list of externally visible events (network calls and the
sign step) it performed. Monetary amounts (SOL, USDC) are modelled as
rationals.
-/

namespace Automaton

/-- Monetary quantities (SOL / USDC decimals in the JS source). -/
abbrev Amount := ℚ

/-- Externally visible steps of one controller invocation, in the order the
JS code awaits them: the reserve-ledger balance read (`connection.getBalance`),
the quote fetch (`axios.get .../quote`), the swap-transaction fetch
(`axios.post .../swap...`), the recent-blockhash fetch
(`connection.getLatestBlockhash`), the local sign step (`tx.sign`), the
network submission (`connection.sendRawTransaction`) and the confirmation
(`connection.confirmTransaction`). -/
inductive Event where
  | readReserveBalance
  | fetchQuote
  | fetchSwapTx
  | fetchBlockhash
  | sign
  | submit
  | confirm
  deriving DecidableEq, Repr

/-- A Solana keypair as the `@solana/web3.js` library represents it: the
secret key is a 64-byte blob whose last 32 bytes are the public key
(ed25519 expanded form). The cryptography itself is abstracted: the public
key is the embedded suffix of the secret-key bytes. -/
structure Keypair where
  secretKey : List Nat
  deriving DecidableEq, Repr

/-- Public key embedded in the 64-byte secret-key blob (its last 32 bytes). -/
def Keypair.publicKey (kp : Keypair) : List Nat :=
  kp.secretKey.drop 32

/-- Model of `Keypair.fromSecretKey`: rebuilds a keypair from the raw
secret-key bytes, throwing (here: `none`) when the blob is not 64 bytes. -/
def Keypair.fromSecretKey (sk : List Nat) : Option Keypair :=
  if sk.length = 64 then some ⟨sk⟩ else none

/-- State of the wallet file at `~/.automaton/solana-wallet.json`:
the parsed JSON byte array, if the file exists, and its file mode. -/
structure WalletFile where
  contents : Option (List Nat)
  mode : Option Nat
  deriving DecidableEq, Repr

/-- Outcome of `loadIdentity`: the identity returned (null on error), the
resulting wallet-file state, and how many keypairs were generated and how
many file writes were performed during the call. -/
structure LoadOutcome where
  identity : Option Keypair
  fs : WalletFile
  generated : Nat
  writes : Nat
  deriving DecidableEq, Repr

/-- Model of `loadIdentity` (identical in both variants): if the wallet file
exists, parse it and rebuild the keypair (a parse/`fromSecretKey` failure is
caught and yields a null identity); otherwise generate a fresh keypair
(`fresh` stands for the entropy drawn by `Keypair.generate`), persist its
secret key with file mode `0o600`, and return it. -/
def loadIdentity (fs : WalletFile) (fresh : Keypair) : LoadOutcome :=
  match fs.contents with
  | some bytes =>
    match Keypair.fromSecretKey bytes with
    | some kp => ⟨some kp, fs, 0, 0⟩
    | none => ⟨none, fs, 0, 0⟩
  | none =>
    ⟨some fresh, ⟨some fresh.secretKey, some 0o600⟩, 1, 1⟩

/-- Model of `getSolBalance`: with no identity loaded it returns `0` without
any network read; otherwise it performs the balance read against the oracle,
whose response (or rejection) is `oracle`. -/
def getSolBalance (identity : Option Keypair) (oracle : Except String Amount) :
    Except String Amount × List Event :=
  match identity with
  | none => (.ok 0, [])
  | some _ =>
    match oracle with
    | .ok balance => (.ok balance, [.readReserveBalance])
    | .error e => (.error e, [.readReserveBalance])

namespace Mayan

/-- A quote as returned by the Mayan Finance price API; the code reads the
fields `expectedAmountOut` (possibly absent) and `minAmountOut` of the chosen
element, plus an identifying provider tag for discussion. -/
structure Quote where
  provider : String
  expectedAmountOut : Option Automaton.Amount
  minAmountOut : Automaton.Amount
  deriving DecidableEq, Repr

/-- Responses the external collaborators would give during one invocation of
the Mayan-variant pipeline: the reserve balance read, the quote list from
`GET /quote` (`.error` = axios rejection, `.ok []` also covers a null/empty
body), the `transaction` field of `POST /swap/solana` (`.ok none` = field
missing), whether `VersionedTransaction.deserialize` succeeds, the
`getLatestBlockhash` response, the `sendRawTransaction` response (a signature)
and the `confirmTransaction` response. -/
structure Env where
  balanceResult : Except String Automaton.Amount
  quoteResult : Except String (List Quote)
  swapResult : Except String (Option String)
  txWellFormed : Bool
  blockhashResult : Except String String
  submitResult : Except String String
  confirmResult : Except String Unit

/-- Result object returned by the Mayan `executeCrossChainSwap` on success:
`{ success: true, txHash: signature, amount: amountSol, expected: expectedOut }`. -/
structure SwapResult where
  success : Bool
  txHash : String
  amount : Automaton.Amount
  expected : Automaton.Amount
  deriving DecidableEq, Repr

/-- Model of the Mayan-variant `executeCrossChainSwap`
(`src/skills/solana-terminator/solana-autonomy.js:118-185`). Every failure is
a thrown error (`.error`), there is no catch in this function: missing
identity, axios rejection, an empty quote list, a missing `transaction` field,
a deserialize failure, and failures of the blockhash fetch, submission or
confirmation all propagate. The best quote is `quotes[0]`; the blockhash is
fetched after the swap-transaction fetch and immediately before signing. -/
def executeCrossChainSwap (identity : Option Automaton.Keypair) (env : Env)
    (_destinationAddress : String) (amountSol : Automaton.Amount) :
    Except String SwapResult × List Automaton.Event :=
  match identity with
  | none => (.error "No Solana identity loaded", [])
  | some _ =>
    match env.quoteResult with
    | .error e => (.error e, [.fetchQuote])
    | .ok [] => (.error "Mayan Finance returned no quotes", [.fetchQuote])
    | .ok (bestQuote :: _) =>
      let expectedOut := bestQuote.expectedAmountOut.getD bestQuote.minAmountOut
      match env.swapResult with
      | .error e => (.error e, [.fetchQuote, .fetchSwapTx])
      | .ok none => (.error "Mayan did not return a transaction", [.fetchQuote, .fetchSwapTx])
      | .ok (some _txBase64) =>
        if env.txWellFormed then
          match env.blockhashResult with
          | .error e => (.error e, [.fetchQuote, .fetchSwapTx, .fetchBlockhash])
          | .ok _blockhash =>
            match env.submitResult with
            | .error e =>
              (.error e, [.fetchQuote, .fetchSwapTx, .fetchBlockhash, .sign, .submit])
            | .ok signature =>
              match env.confirmResult with
              | .error e =>
                (.error e,
                 [.fetchQuote, .fetchSwapTx, .fetchBlockhash, .sign, .submit, .confirm])
              | .ok _ =>
                (.ok { success := true, txHash := signature,
                       amount := amountSol, expected := expectedOut },
                 [.fetchQuote, .fetchSwapTx, .fetchBlockhash, .sign, .submit, .confirm])
        else (.error "failed to deserialize transaction", [.fetchQuote, .fetchSwapTx])

/-- Constants of `checkVitalSigns`, made explicit so properties quantified
over thresholds can be stated; `defaultConfig` holds the literal values of
the source. -/
structure Config where
  usdcThreshold : Automaton.Amount
  solReserve : Automaton.Amount
  solToBridge : Automaton.Amount

/-- Literal constants of the source: `USDC_THRESHOLD = 5.0`,
`SOL_RESERVE = 0.05`, `SOL_TO_BRIDGE = 0.4`. -/
def defaultConfig : Config :=
  { usdcThreshold := 5, solReserve := 5/100, solToBridge := 4/10 }

/-- The `MIN_SOL = SOL_TO_BRIDGE + SOL_RESERVE` bound of the source. -/
def Config.minSol (cfg : Config) : Automaton.Amount :=
  cfg.solToBridge + cfg.solReserve

/-- Structured results `checkVitalSigns` can return: `{success:true,
status:'nominal'}`, `{success:false, error:'Insufficient SOL for bridge'}`,
or the result object of the bridge pipeline. -/
inductive VitalOutcome where
  | nominal
  | insufficient (error : String)
  | bridged (r : SwapResult)
  deriving DecidableEq, Repr

/-- Model of the Mayan-variant `checkVitalSigns`
(`src/skills/solana-terminator/solana-autonomy.js:81-104`): if the USDC
balance is at or above the threshold, return nominal with no further action;
otherwise read the SOL reserve balance, return the insufficient result when it
is below `MIN_SOL`, and otherwise run the bridge pipeline. Errors thrown by
the balance read or the pipeline propagate uncaught. -/
def checkVitalSigns (cfg : Config) (identity : Option Automaton.Keypair) (env : Env)
    (baseWalletAddress : String) (currentUsdcBalance : Automaton.Amount) :
    Except String VitalOutcome × List Automaton.Event :=
  if currentUsdcBalance ≥ cfg.usdcThreshold then
    (.ok .nominal, [])
  else
    match Automaton.getSolBalance identity env.balanceResult with
    | (.error e, tr) => (.error e, tr)
    | (.ok solBalance, tr) =>
      if solBalance < cfg.minSol then
        (.ok (.insufficient "Insufficient SOL for bridge"), tr)
      else
        match executeCrossChainSwap identity env baseWalletAddress cfg.solToBridge with
        | (.error e, tr2) => (.error e, tr ++ tr2)
        | (.ok r, tr2) => (.ok (.bridged r), tr ++ tr2)

/-- Model of `keepAlive` (`solana-autonomy.js:249-251`): it simply awaits
`checkVitalSigns` and returns its result, adding no error handling. -/
def keepAlive (cfg : Config) (identity : Option Automaton.Keypair) (env : Env)
    (baseWalletAddress : String) (currentUsdcBalance : Automaton.Amount) :
    Except String VitalOutcome × List Automaton.Event :=
  checkVitalSigns cfg identity env baseWalletAddress currentUsdcBalance

/-- Quote object of the Jupiter v6 API; the code reads `outAmount`. -/
structure JupiterQuote where
  outAmount : Nat
  deriving DecidableEq, Repr

/-- Collaborator responses for one invocation of the Jupiter native-swap
path: the quote fetch, the `swapTransaction` field of `POST /swap`, whether
deserialization succeeds, the submission response, the `getLatestBlockhash`
response used for confirmation and the confirmation response. -/
structure JupiterEnv where
  quoteResult : Except String JupiterQuote
  swapResult : Except String String
  txWellFormed : Bool
  submitResult : Except String String
  blockhashResult : Except String Unit
  confirmResult : Except String Unit

/-- Result object of `swap` on success:
`{ success: true, txHash: signature, inAmount: amount, outAmount: quote.outAmount }`. -/
structure JupiterResult where
  success : Bool
  txHash : String
  inAmount : Nat
  outAmount : Nat
  deriving DecidableEq, Repr

/-- Model of the Jupiter-native `swap`
(`src/skills/solana-terminator/solana-autonomy.js:198-241`). Note the event
order of the source: the transaction is deserialized and signed directly after
the swap-transaction fetch, with no blockhash fetch before signing;
`getLatestBlockhash` is called only after `sendRawTransaction`, to build the
confirmation argument. -/
def swap (identity : Option Automaton.Keypair) (env : JupiterEnv)
    (_inputMint _outputMint : String) (amount : Nat) (_slippageBps : Nat) :
    Except String JupiterResult × List Automaton.Event :=
  match identity with
  | none => (.error "No Solana identity loaded", [])
  | some _ =>
    match env.quoteResult with
    | .error e => (.error e, [.fetchQuote])
    | .ok quote =>
      match env.swapResult with
      | .error e => (.error e, [.fetchQuote, .fetchSwapTx])
      | .ok _swapTransaction =>
        if env.txWellFormed then
          match env.submitResult with
          | .error e => (.error e, [.fetchQuote, .fetchSwapTx, .sign, .submit])
          | .ok signature =>
            match env.blockhashResult with
            | .error e =>
              (.error e, [.fetchQuote, .fetchSwapTx, .sign, .submit, .fetchBlockhash])
            | .ok _ =>
              match env.confirmResult with
              | .error e =>
                (.error e,
                 [.fetchQuote, .fetchSwapTx, .sign, .submit, .fetchBlockhash, .confirm])
              | .ok _ =>
                (.ok { success := true, txHash := signature,
                       inAmount := amount, outAmount := quote.outAmount },
                 [.fetchQuote, .fetchSwapTx, .sign, .submit, .fetchBlockhash, .confirm])
        else (.error "failed to deserialize transaction", [.fetchQuote, .fetchSwapTx])

end Mayan

namespace Jumper

/-- Collaborator responses for the Jumper variant (`src/unnamed/part_000`):
the reserve balance read, the Jumper `GET /v2/quote` response body
(abstracted to an opaque string; `.error` = axios rejection), and `Date.now()`
at the time the fabricated transaction hash is built. -/
structure Env where
  balanceResult : Except String Automaton.Amount
  quoteResult : Except String String
  now : Nat

/-- Result object of the Jumper `executeCrossChainSwap`: either
`{ success: true, txHash, amount }` or `{ success: false, error }`. -/
structure SwapResult where
  success : Bool
  txHash : Option String
  amount : Option Automaton.Amount
  error : Option String
  deriving DecidableEq, Repr

/-- Model of the Jumper-variant `executeCrossChainSwap`
(`src/unnamed/part_000:89-120`). The axios call carries a
`.catch(err => ({data: {message: "SIMULATED_QUOTE_RECEIVED"}}))` handler, so a
provider failure is replaced by a placeholder body, and the function then
unconditionally returns `{success:true, txHash:"SIMULATED_TX_HASH_SOL_BASE_"
+ Date.now(), amount: amountSol}` without deserializing, signing or
submitting anything. With a null identity, reading `this.identity.publicKey`
while building the request params throws, the outer catch swallows it and the
function returns `{success:false, error}`. -/
def executeCrossChainSwap (identity : Option Automaton.Keypair) (env : Env)
    (_destinationAddress : String) (amountSol : Automaton.Amount) :
    SwapResult × List Automaton.Event :=
  match identity with
  | none =>
    ({ success := false, txHash := none, amount := none,
       error := some "TypeError: cannot read publicKey of null" }, [])
  | some _ =>
    let _response : String :=
      match env.quoteResult with
      | .ok body => body
      | .error _ => "SIMULATED_QUOTE_RECEIVED"
    ({ success := true,
       txHash := some ("SIMULATED_TX_HASH_SOL_BASE_" ++ toString env.now),
       amount := some amountSol, error := none }, [.fetchQuote])

/-- Structured results of the Jumper `checkVitalSigns`: `{success:true,
status:'nominal'}`, `{success:false, error:'Insufficient SOL'}`, or the result
of the (simulated) swap. -/
inductive VitalOutcome where
  | nominal
  | insufficient (error : String)
  | swapped (r : SwapResult)
  deriving DecidableEq, Repr

/-- Model of the Jumper-variant `checkVitalSigns`
(`src/unnamed/part_000:60-83`): threshold `5.00`; on a low USDC balance it
reads the SOL balance and triggers the swap of `0.4` SOL only when the
balance exceeds `0.5`, otherwise it returns the insufficient result. A
rejection of the balance read propagates uncaught. -/
def checkVitalSigns (identity : Option Automaton.Keypair) (env : Env)
    (baseWalletAddress : String) (currentBaseBalanceUsdc : Automaton.Amount) :
    Except String VitalOutcome × List Automaton.Event :=
  if currentBaseBalanceUsdc < 5 then
    match Automaton.getSolBalance identity env.balanceResult with
    | (.error e, tr) => (.error e, tr)
    | (.ok solBalance, tr) =>
      if solBalance > 1/2 then
        match executeCrossChainSwap identity env baseWalletAddress (4/10) with
        | (r, tr2) => (.ok (.swapped r), tr ++ tr2)
      else
        (.ok (.insufficient "Insufficient SOL"), tr)
  else
    (.ok .nominal, [])

/-- Model of the Jumper `keepAlive` (`src/unnamed/part_000:135-137`): it
awaits `checkVitalSigns` and returns its result, adding no error handling. -/
def keepAlive (identity : Option Automaton.Keypair) (env : Env)
    (baseWalletAddress : String) (currentBaseBalanceUsdc : Automaton.Amount) :
    Except String VitalOutcome × List Automaton.Event :=
  checkVitalSigns identity env baseWalletAddress currentBaseBalanceUsdc

end Jumper

/-- A fixed 64-byte secret key used by concrete witnesses. -/
def kp0 : Keypair := ⟨List.replicate 64 7⟩

/-- A Jumper-variant environment in which the quote provider request fails
with a network error. -/
def jumperFailEnv : Jumper.Env :=
  { balanceResult := .ok 1,
    quoteResult := .error "getaddrinfo ENOTFOUND quote-api.jumper.exchange",
    now := 1700000000000 }

/-- A Mayan-variant environment with a healthy reserve balance in which the
quote request fails with a network error. -/
def mayanQuoteFailEnv : Mayan.Env :=
  { balanceResult := .ok 1,
    quoteResult := .error "getaddrinfo ENOTFOUND price-api.mayan.finance",
    swapResult := .ok none, txWellFormed := true, blockhashResult := .ok "bh",
    submitResult := .ok "sig", confirmResult := .ok () }

/-- C1: the claim that every cross-chain swap execution surfaces a provider
failure as an error result (`NoQuoteAvailable`/`AssemblyError`) and never
returns a success synthesized without a real provider response. The Jumper
variant (`src/unnamed/part_000:89-120`) violates this: when the quote request
fails with a network error, the `.catch` handler substitutes a placeholder
body and the function returns `{success:true}` with a fabricated
`SIMULATED_TX_HASH_SOL_BASE_...` hash, signing and submitting nothing. The
spec (section 9) itself flags this variant as unintended masking of a
failure, so the code, not the claim, is at fault. -/
theorem jumper_fabricated_success_on_provider_failure :
    Jumper.executeCrossChainSwap (some kp0) jumperFailEnv "0xBaseWallet" (4/10) =
      ({ success := true,
         txHash := some ("SIMULATED_TX_HASH_SOL_BASE_" ++ toString 1700000000000),
         amount := some (4/10), error := none }, [.fetchQuote]) ∧
    (Jumper.executeCrossChainSwap (some kp0) jumperFailEnv "0xBaseWallet" (4/10)).2.count
      Event.sign = 0 ∧
    (Jumper.executeCrossChainSwap (some kp0) jumperFailEnv "0xBaseWallet" (4/10)).2.count
      Event.submit = 0 :=
  ⟨rfl, rfl, rfl⟩

/-- C9: in the Jumper variant, every call to `executeCrossChainSwap` with a
loaded identity (the only way `checkVitalSigns` ever reaches it, since a null
identity forces a zero reserve balance) signs and submits nothing and returns
`{success:true, txHash:"SIMULATED_TX_HASH_SOL_BASE_" ++ Date.now(), amount}`,
whatever the quote provider returned — the error branch of the quote request
is swallowed by the `.catch` handler. -/
theorem jumper_swap_always_simulated (kp : Keypair) (env : Jumper.Env)
    (dest : String) (amountSol : Amount) :
    Jumper.executeCrossChainSwap (some kp) env dest amountSol =
      ({ success := true,
         txHash := some ("SIMULATED_TX_HASH_SOL_BASE_" ++ toString env.now),
         amount := some amountSol, error := none }, [.fetchQuote]) ∧
    Event.sign ∉ (Jumper.executeCrossChainSwap (some kp) env dest amountSol).2 ∧
    Event.submit ∉ (Jumper.executeCrossChainSwap (some kp) env dest amountSol).2 := by
  refine ⟨rfl, ?_, ?_⟩ <;> simp [Jumper.executeCrossChainSwap]

/-- C8: if no wallet file exists, `loadIdentity` generates exactly one new
keypair, persists it with exactly one write at file mode `0o600`, and a
subsequent load from the persisted file performs no generation or write and
returns an identity with the identical public address. -/
theorem loadIdentity_generate_persist_roundtrip (fs : WalletFile)
    (fresh fresh2 : Keypair) (hmissing : fs.contents = none)
    (hlen : fresh.secretKey.length = 64) :
    (loadIdentity fs fresh).identity = some fresh ∧
    (loadIdentity fs fresh).generated = 1 ∧
    (loadIdentity fs fresh).writes = 1 ∧
    (loadIdentity fs fresh).fs.mode = some 0o600 ∧
    (loadIdentity (loadIdentity fs fresh).fs fresh2).generated = 0 ∧
    (loadIdentity (loadIdentity fs fresh).fs fresh2).writes = 0 ∧
    ((loadIdentity (loadIdentity fs fresh).fs fresh2).identity.map Keypair.publicKey) =
      some fresh.publicKey := by
  simp [loadIdentity, hmissing, Keypair.fromSecretKey, hlen, Keypair.publicKey]

/-- Witness for C8 at a concrete empty filesystem and the fixed keypair. -/
theorem loadIdentity_generate_persist_roundtrip_witness :
    (loadIdentity ⟨none, none⟩ kp0).identity = some kp0 ∧
    (loadIdentity ⟨none, none⟩ kp0).generated = 1 ∧
    (loadIdentity ⟨none, none⟩ kp0).writes = 1 ∧
    (loadIdentity ⟨none, none⟩ kp0).fs.mode = some 0o600 ∧
    (loadIdentity (loadIdentity ⟨none, none⟩ kp0).fs kp0).generated = 0 ∧
    (loadIdentity (loadIdentity ⟨none, none⟩ kp0).fs kp0).writes = 0 ∧
    ((loadIdentity (loadIdentity ⟨none, none⟩ kp0).fs kp0).identity.map Keypair.publicKey) =
      some kp0.publicKey :=
  loadIdentity_generate_persist_roundtrip ⟨none, none⟩ kp0 kp0 rfl (by decide)

/-- C10: with no identity loaded, `getSolBalance` returns exactly `0` with no
network read, and consequently `checkVitalSigns` (in both variants, at the
source constants) treats a missing identity as a zero reserve balance on a
low operating balance and reports the insufficient-funds result — not an
identity-unavailable condition — again without any network event. -/
theorem missing_identity_reads_as_zero_and_insufficient :
    (∀ oracle : Except String Amount, getSolBalance none oracle = (.ok 0, [])) ∧
    (∀ (env : Mayan.Env) (addr : String) (usdc : Amount), usdc < 5 →
      Mayan.checkVitalSigns Mayan.defaultConfig none env addr usdc =
        (.ok (.insufficient "Insufficient SOL for bridge"), [])) ∧
    (∀ (env : Jumper.Env) (addr : String) (usdc : Amount), usdc < 5 →
      Jumper.checkVitalSigns none env addr usdc =
        (.ok (.insufficient "Insufficient SOL"), [])) := by
  refine ⟨fun oracle => rfl, ?_, ?_⟩
  · intro env addr usdc h
    have hthr : ¬ (Mayan.defaultConfig.usdcThreshold ≤ usdc) := by
      simp only [Mayan.defaultConfig]
      exact not_le.mpr h
    have hmin : (0 : Amount) < Mayan.defaultConfig.minSol := by
      norm_num [Mayan.defaultConfig, Mayan.Config.minSol]
    simp [Mayan.checkVitalSigns, getSolBalance, hthr, hmin]
  · intro env addr usdc h
    have hhalf : ¬ ((0 : Amount) > 1/2) := by norm_num
    simp [Jumper.checkVitalSigns, getSolBalance, h, hhalf]

/-- Witness for C10 at the concrete low balance `2`. -/
theorem missing_identity_reads_as_zero_and_insufficient_witness :
    getSolBalance none (.ok 3) = (.ok 0, []) ∧
    Mayan.checkVitalSigns Mayan.defaultConfig none mayanQuoteFailEnv "0xBase" 2 =
      (.ok (.insufficient "Insufficient SOL for bridge"), []) ∧
    Jumper.checkVitalSigns none jumperFailEnv "0xBase" 2 =
      (.ok (.insufficient "Insufficient SOL"), []) :=
  ⟨missing_identity_reads_as_zero_and_insufficient.1 (.ok 3),
   missing_identity_reads_as_zero_and_insufficient.2.1 mayanQuoteFailEnv "0xBase" 2 (by decide),
   missing_identity_reads_as_zero_and_insufficient.2.2 jumperFailEnv "0xBase" 2 (by decide)⟩

/-- C5: for every threshold and every USDC balance at or above it, both
variants of `checkVitalSigns` return the nominal status result with an empty
event trace — no reserve-balance read, no quote fetch, no submission. (The
Mayan variant is stated for an arbitrary configuration; the Jumper variant
hardcodes its threshold of `5.00`.) -/
theorem nominal_balance_takes_no_action :
    (∀ (cfg : Mayan.Config) (identity : Option Keypair) (env : Mayan.Env)
        (addr : String) (usdc : Amount), cfg.usdcThreshold ≤ usdc →
      Mayan.checkVitalSigns cfg identity env addr usdc = (.ok .nominal, [])) ∧
    (∀ (identity : Option Keypair) (env : Jumper.Env) (addr : String)
        (usdc : Amount), (5 : Amount) ≤ usdc →
      Jumper.checkVitalSigns identity env addr usdc = (.ok .nominal, [])) := by
  constructor
  · intro cfg identity env addr usdc h
    simp [Mayan.checkVitalSigns, ge_iff_le, h]
  · intro identity env addr usdc h
    simp [Jumper.checkVitalSigns, not_lt.mpr h]

/-- Witness for C5 at threshold `5` and balance `6`. -/
theorem nominal_balance_takes_no_action_witness :
    Mayan.checkVitalSigns Mayan.defaultConfig (some kp0) mayanQuoteFailEnv "0xBase" 6 =
      (.ok .nominal, []) ∧
    Jumper.checkVitalSigns (some kp0) jumperFailEnv "0xBase" 6 = (.ok .nominal, []) :=
  ⟨nominal_balance_takes_no_action.1 Mayan.defaultConfig (some kp0) mayanQuoteFailEnv
      "0xBase" 6 (by decide),
   nominal_balance_takes_no_action.2 (some kp0) jumperFailEnv "0xBase" 6 (by decide)⟩

/-- A Mayan-variant environment whose reserve-balance read returns `0.3` SOL
(the spec example for the insufficient-reserve case). -/
def mayanLowReserveEnv : Mayan.Env :=
  { balanceResult := .ok (3/10),
    quoteResult := .ok [⟨"Mayan", some 8, 7⟩],
    swapResult := .ok (some "AQID"), txWellFormed := true, blockhashResult := .ok "bh",
    submitResult := .ok "sig", confirmResult := .ok () }

/-- A Mayan-variant environment in which every collaborator call succeeds:
one quote, a transaction payload, a blockhash, a submission signature and a
confirmation. -/
def mayanHappyEnv : Mayan.Env :=
  { balanceResult := .ok 1,
    quoteResult := .ok [⟨"Mayan", some 8, 7⟩],
    swapResult := .ok (some "AQID"), txWellFormed := true, blockhashResult := .ok "bh",
    submitResult := .ok "sig", confirmResult := .ok () }

/-- A Jumper-variant environment whose reserve-balance read returns `0.3` SOL. -/
def jumperLowReserveEnv : Jumper.Env :=
  { balanceResult := .ok (3/10), quoteResult := .ok "QUOTE_BODY", now := 0 }

/-- C4: on a low operating balance, if the reserve balance is below
`transferAmount + feeReserve` the controller returns the insufficient-reserve
result with only the balance read in its event trace — no quote fetch, no
signing, no submission — and conversely a bridged result is only ever
produced when the reserve is at least `transferAmount + feeReserve`
(`MIN_SOL = SOL_TO_BRIDGE + SOL_RESERVE` in the Mayan variant). The Jumper
variant, whose trigger bound is the stricter `solBalance > 0.5`, also returns
its insufficient result whenever the reserve is below `0.4 + 0.05`. -/
theorem insufficient_reserve_stops_before_pipeline :
    (∀ (cfg : Mayan.Config) (kp : Keypair) (env : Mayan.Env) (addr : String)
        (usdc R : Amount), usdc < cfg.usdcThreshold → env.balanceResult = .ok R →
        R < cfg.minSol →
      Mayan.checkVitalSigns cfg (some kp) env addr usdc =
        (.ok (.insufficient "Insufficient SOL for bridge"), [.readReserveBalance])) ∧
    (∀ (cfg : Mayan.Config) (kp : Keypair) (env : Mayan.Env) (addr : String)
        (usdc R : Amount) (r : Mayan.SwapResult), usdc < cfg.usdcThreshold →
        env.balanceResult = .ok R →
        (Mayan.checkVitalSigns cfg (some kp) env addr usdc).1 = .ok (.bridged r) →
        cfg.minSol ≤ R) ∧
    (∀ (kp : Keypair) (env : Jumper.Env) (addr : String) (usdc R : Amount),
        usdc < 5 → env.balanceResult = .ok R → R < 4/10 + 5/100 →
      Jumper.checkVitalSigns (some kp) env addr usdc =
        (.ok (.insufficient "Insufficient SOL"), [.readReserveBalance])) := by
  refine ⟨?_, ?_, ?_⟩
  · intro cfg kp env addr usdc R hlow hbal hres
    have hthr : ¬ (cfg.usdcThreshold ≤ usdc) := not_le.mpr hlow
    simp [Mayan.checkVitalSigns, getSolBalance, hbal, hthr, hres]
  · intro cfg kp env addr usdc R r hlow hbal hbridged
    by_cases hres : R < cfg.minSol
    · exfalso
      have hthr : ¬ (cfg.usdcThreshold ≤ usdc) := not_le.mpr hlow
      simp [Mayan.checkVitalSigns, getSolBalance, hbal, hthr, hres] at hbridged
    · exact not_lt.mp hres
  · intro kp env addr usdc R hlow hbal hres
    have hhalf : ¬ (R > 1/2) := by
      intro hc
      linarith
    simp [Jumper.checkVitalSigns, getSolBalance, hlow, hbal, hhalf]
    linarith

/-- Witness for C4 at the spec example `T = 5, B = 2, R = 0.3` (first and
third conjunct) and at a completed bridge run with `R = 1` (second conjunct). -/
theorem insufficient_reserve_stops_before_pipeline_witness :
    Mayan.checkVitalSigns Mayan.defaultConfig (some kp0) mayanLowReserveEnv "0xBase" 2 =
      (.ok (.insufficient "Insufficient SOL for bridge"), [.readReserveBalance]) ∧
    Mayan.defaultConfig.minSol ≤ 1 ∧
    Jumper.checkVitalSigns (some kp0) jumperLowReserveEnv "0xBase" 2 =
      (.ok (.insufficient "Insufficient SOL"), [.readReserveBalance]) :=
  ⟨insufficient_reserve_stops_before_pipeline.1 Mayan.defaultConfig kp0 mayanLowReserveEnv
      "0xBase" 2 (3/10) (by decide) rfl
      (by norm_num [Mayan.defaultConfig, Mayan.Config.minSol]),
   insufficient_reserve_stops_before_pipeline.2.1 Mayan.defaultConfig kp0 mayanHappyEnv
      "0xBase" 2 1
      { success := true, txHash := "sig", amount := 4/10, expected := 8 }
      (by decide) rfl
      (by norm_num [Mayan.checkVitalSigns, Mayan.executeCrossChainSwap, getSolBalance,
            mayanHappyEnv, Mayan.defaultConfig, Mayan.Config.minSol]),
   insufficient_reserve_stops_before_pipeline.2.2 kp0 jumperLowReserveEnv "0xBase" 2 (3/10)
      (by decide) rfl (by norm_num)⟩

/-- A Mayan-variant environment whose quote request succeeds with an empty
quote list. -/
def mayanEmptyQuotesEnv : Mayan.Env :=
  { balanceResult := .ok 1, quoteResult := .ok [], swapResult := .ok none,
    txWellFormed := true, blockhashResult := .ok "bh", submitResult := .ok "sig",
    confirmResult := .ok () }

/-- C2 counterexample: the claim that every invocation of the controller
entry point returns a structured result and never propagates an unhandled
exception is false for the Mayan variant: with a low USDC balance, a healthy
reserve and a provider returning an empty quote list, `keepAlive` propagates
the thrown error (there is no catch anywhere on the path). -/
theorem mayan_keepAlive_propagates_thrown_error :
    Mayan.keepAlive Mayan.defaultConfig (some kp0) mayanEmptyQuotesEnv "0xBase" 2 =
      (.error "Mayan Finance returned no quotes", [.readReserveBalance, .fetchQuote]) := by
  have hthr : ¬ (Mayan.defaultConfig.usdcThreshold ≤ (2 : Amount)) := by
    norm_num [Mayan.defaultConfig]
  have hmin : ¬ ((1 : Amount) < Mayan.defaultConfig.minSol) := by
    norm_num [Mayan.defaultConfig, Mayan.Config.minSol]
  simp [Mayan.keepAlive, Mayan.checkVitalSigns, Mayan.executeCrossChainSwap, getSolBalance,
    mayanEmptyQuotesEnv, hthr, hmin]

/-- C2 amended: invocations that stop before the bridge pipeline do return
structured results — the nominal case and, after a successful reserve read,
the insufficient-reserve case — and the Jumper variant returns a structured
result whenever its balance read succeeds; but Mayan-variant failures of the
balance read or of the quote/assembly/submission steps propagate to the
caller as thrown errors rather than result objects. -/
theorem keepAlive_structured_results_before_pipeline :
    (∀ (cfg : Mayan.Config) (identity : Option Keypair) (env : Mayan.Env)
        (addr : String) (usdc : Amount), cfg.usdcThreshold ≤ usdc →
      Mayan.keepAlive cfg identity env addr usdc = (.ok .nominal, [])) ∧
    (∀ (cfg : Mayan.Config) (kp : Keypair) (env : Mayan.Env) (addr : String)
        (usdc R : Amount), usdc < cfg.usdcThreshold → env.balanceResult = .ok R →
        R < cfg.minSol →
      Mayan.keepAlive cfg (some kp) env addr usdc =
        (.ok (.insufficient "Insufficient SOL for bridge"), [.readReserveBalance])) ∧
    (∀ (identity : Option Keypair) (env : Jumper.Env) (addr : String)
        (usdc b : Amount), env.balanceResult = .ok b →
      ∃ v, (Jumper.keepAlive identity env addr usdc).1 = Except.ok v) := by
  refine ⟨?_, ?_, ?_⟩
  · intro cfg identity env addr usdc h
    simp [Mayan.keepAlive, Mayan.checkVitalSigns, ge_iff_le, h]
  · intro cfg kp env addr usdc R hlow hbal hres
    have hthr : ¬ (cfg.usdcThreshold ≤ usdc) := not_le.mpr hlow
    simp [Mayan.keepAlive, Mayan.checkVitalSigns, getSolBalance, hbal, hthr, hres]
  · intro identity env addr usdc b hbal
    by_cases hlow : usdc < 5
    · rcases identity with _ | kp
      · exact ⟨.insufficient "Insufficient SOL",
          by norm_num [Jumper.keepAlive, Jumper.checkVitalSigns, getSolBalance, hlow]⟩
      · by_cases hr : b > 1/2
        · exact ⟨.swapped
            { success := true,
              txHash := some ("SIMULATED_TX_HASH_SOL_BASE_" ++ toString env.now),
              amount := some (4/10), error := none },
            by norm_num [Jumper.keepAlive, Jumper.checkVitalSigns,
                 Jumper.executeCrossChainSwap, getSolBalance, hbal, hlow, hr]⟩
        · exact ⟨.insufficient "Insufficient SOL",
            by norm_num [Jumper.keepAlive, Jumper.checkVitalSigns, getSolBalance, hbal,
                 hlow, hr]⟩
    · exact ⟨.nominal, by simp [Jumper.keepAlive, Jumper.checkVitalSigns, hlow]⟩

/-- Witness for C2 at the concrete balances `6` (nominal), `2` with reserve
`0.3` (insufficient), and a Jumper invocation with a successful balance read. -/
theorem keepAlive_structured_results_before_pipeline_witness :
    Mayan.keepAlive Mayan.defaultConfig (some kp0) mayanHappyEnv "0xBase" 6 =
      (.ok .nominal, []) ∧
    Mayan.keepAlive Mayan.defaultConfig (some kp0) mayanLowReserveEnv "0xBase" 2 =
      (.ok (.insufficient "Insufficient SOL for bridge"), [.readReserveBalance]) ∧
    (∃ v, (Jumper.keepAlive (some kp0) jumperFailEnv "0xBase" 2).1 = Except.ok v) :=
  ⟨keepAlive_structured_results_before_pipeline.1 Mayan.defaultConfig (some kp0)
      mayanHappyEnv "0xBase" 6 (by decide),
   keepAlive_structured_results_before_pipeline.2.1 Mayan.defaultConfig kp0
      mayanLowReserveEnv "0xBase" 2 (3/10) (by decide) rfl
      (by norm_num [Mayan.defaultConfig, Mayan.Config.minSol]),
   keepAlive_structured_results_before_pipeline.2.2 (some kp0) jumperFailEnv "0xBase" 2 1
      rfl⟩

/-- A Mayan-variant environment whose quote request returns the two spec
example candidates in the order A then B: provider A with expected output
`9.8` and provider B with expected output `9.95`. -/
def mayanTwoQuotesEnv : Mayan.Env :=
  { balanceResult := .ok 1,
    quoteResult := .ok [⟨"ProviderA", some (98/10), 9⟩, ⟨"ProviderB", some (995/100), 9⟩],
    swapResult := .ok (some "AQIDBA=="), txWellFormed := true,
    blockhashResult := .ok "bh", submitResult := .ok "sig123", confirmResult := .ok () }

/-- C3 counterexample: the claim that the aggregator selects the quote with
the highest `expectedDestAmount` — in particular that provider B with
expected output `9.95` is selected over provider A with `9.8` in any order —
is false: with the candidates ordered `[A, B]`, the returned result carries
provider A's expected output `9.8`, not `9.95`, because the code takes
`quotes[0]` without comparing amounts. -/
theorem best_quote_not_selected_counterexample :
    (Mayan.executeCrossChainSwap (some kp0) mayanTwoQuotesEnv "0xBase" (4/10)).1 =
      .ok { success := true, txHash := "sig123", amount := 4/10, expected := 98/10 } ∧
    (98/10 : Amount) ≠ 995/100 :=
  ⟨rfl, by norm_num⟩

/-- C3 amended: the aggregator deterministically selects the first quote of
the list returned by the provider (`quotes[0]`), whatever the
`expectedDestAmount` values of the other candidates; the returned `expected`
field is the first quote's `expectedAmountOut` (falling back to its
`minAmountOut`). -/
theorem first_quote_in_provider_order_selected (q : Mayan.Quote)
    (rest : List Mayan.Quote) (kp : Keypair) (env : Mayan.Env) (dest : String)
    (amt : Amount) (tx bh sig : String)
    (hq : env.quoteResult = .ok (q :: rest)) (hs : env.swapResult = .ok (some tx))
    (hw : env.txWellFormed = true) (hbh : env.blockhashResult = .ok bh)
    (hsub : env.submitResult = .ok sig) (hc : env.confirmResult = .ok ()) :
    (Mayan.executeCrossChainSwap (some kp) env dest amt).1 =
      .ok { success := true, txHash := sig, amount := amt,
            expected := q.expectedAmountOut.getD q.minAmountOut } := by
  simp [Mayan.executeCrossChainSwap, hq, hs, hw, hbh, hsub, hc]

/-- Witness for C3 at the two spec example candidates: the first quote
(provider A, expected `9.8`) is the one selected. -/
theorem first_quote_in_provider_order_selected_witness :
    (Mayan.executeCrossChainSwap (some kp0) mayanTwoQuotesEnv "0xBase" (4/10)).1 =
      .ok { success := true, txHash := "sig123", amount := 4/10, expected := 98/10 } :=
  first_quote_in_provider_order_selected ⟨"ProviderA", some (98/10), 9⟩
    [⟨"ProviderB", some (995/100), 9⟩] kp0 mayanTwoQuotesEnv "0xBase" (4/10)
    "AQIDBA==" "bh" "sig123" rfl rfl rfl rfl rfl rfl

/-- C6: on a low operating balance with sufficient reserve and every
collaborator call succeeding, the Mayan controller performs the full pipeline
with exactly one submission event, and the returned result's `amount` field
is the configured transfer amount `SOL_TO_BRIDGE` (`0.4` at the source
constants), taken from the configuration and not from any field of the
selected quote. -/
theorem bridge_submits_once_with_configured_amount (cfg : Mayan.Config)
    (kp : Keypair) (env : Mayan.Env) (addr : String) (usdc R : Amount)
    (q : Mayan.Quote) (rest : List Mayan.Quote) (tx bh sig : String)
    (hlow : usdc < cfg.usdcThreshold) (hbal : env.balanceResult = .ok R)
    (hres : ¬ (R < cfg.minSol)) (hq : env.quoteResult = .ok (q :: rest))
    (hs : env.swapResult = .ok (some tx)) (hw : env.txWellFormed = true)
    (hbh : env.blockhashResult = .ok bh) (hsub : env.submitResult = .ok sig)
    (hc : env.confirmResult = .ok ()) :
    Mayan.checkVitalSigns cfg (some kp) env addr usdc =
      (.ok (.bridged { success := true, txHash := sig, amount := cfg.solToBridge,
                       expected := q.expectedAmountOut.getD q.minAmountOut }),
       [.readReserveBalance, .fetchQuote, .fetchSwapTx, .fetchBlockhash, .sign,
        .submit, .confirm]) ∧
    (Mayan.checkVitalSigns cfg (some kp) env addr usdc).2.count Event.submit = 1 := by
  have hthr : ¬ (cfg.usdcThreshold ≤ usdc) := not_le.mpr hlow
  have heq : Mayan.checkVitalSigns cfg (some kp) env addr usdc =
      (.ok (.bridged { success := true, txHash := sig, amount := cfg.solToBridge,
                       expected := q.expectedAmountOut.getD q.minAmountOut }),
       [.readReserveBalance, .fetchQuote, .fetchSwapTx, .fetchBlockhash, .sign,
        .submit, .confirm]) := by
    simp [Mayan.checkVitalSigns, Mayan.executeCrossChainSwap, getSolBalance, hbal, hthr,
      hres, hq, hs, hw, hbh, hsub, hc]
  refine ⟨heq, ?_⟩
  rw [heq]
  rfl

/-- Witness for C6 at `T = 5, B = 2, R = 1` and the all-success environment. -/
theorem bridge_submits_once_with_configured_amount_witness :
    Mayan.checkVitalSigns Mayan.defaultConfig (some kp0) mayanHappyEnv "0xBase" 2 =
      (.ok (.bridged { success := true, txHash := "sig",
                       amount := Mayan.defaultConfig.solToBridge, expected := 8 }),
       [.readReserveBalance, .fetchQuote, .fetchSwapTx, .fetchBlockhash, .sign,
        .submit, .confirm]) ∧
    (Mayan.checkVitalSigns Mayan.defaultConfig (some kp0) mayanHappyEnv
        "0xBase" 2).2.count Event.submit = 1 :=
  bridge_submits_once_with_configured_amount Mayan.defaultConfig kp0 mayanHappyEnv
    "0xBase" 2 1 ⟨"Mayan", some 8, 7⟩ [] "AQID" "bh" "sig" (by decide) rfl
    (by norm_num [Mayan.defaultConfig, Mayan.Config.minSol]) rfl rfl rfl rfl rfl rfl

/-- A Jupiter environment in which every collaborator call succeeds. -/
def jupiterHappyEnv : Mayan.JupiterEnv :=
  { quoteResult := .ok ⟨95⟩, swapResult := .ok "AQID", txWellFormed := true,
    submitResult := .ok "jupSig", blockhashResult := .ok (), confirmResult := .ok () }

/-- C7 counterexample: the claim that in every signing pipeline the
recent-blockhash fetch occurs between quote selection and the sign step is
false for the Jupiter native-swap pipeline: in a fully successful run the
event trace signs and submits first and only then calls
`getLatestBlockhash` (for the confirmation argument), so no blockhash fetch
precedes the sign event. -/
theorem jupiter_swap_signs_before_blockhash_fetch :
    Mayan.swap (some kp0) jupiterHappyEnv "mintIn" "mintOut" 1000000000 50 =
      (.ok { success := true, txHash := "jupSig", inAmount := 1000000000,
             outAmount := 95 },
       [.fetchQuote, .fetchSwapTx, .sign, .submit, .fetchBlockhash, .confirm]) ∧
    ((Mayan.swap (some kp0) jupiterHappyEnv "mintIn" "mintOut" 1000000000 50).2.takeWhile
        (fun e => !(e == Event.sign))).count Event.fetchBlockhash = 0 ∧
    Event.sign ∈ (Mayan.swap (some kp0) jupiterHappyEnv "mintIn" "mintOut" 1000000000 50).2 := by
  refine ⟨rfl, ?_, ?_⟩ <;> decide

/-- C7 amended: the blockhash-before-signing discipline holds for the
cross-chain bridge pipeline — its successful trace fetches the blockhash
after quote selection and immediately before signing — but not for the
native-swap pipeline, whose successful trace signs and submits first and
fetches a blockhash only afterwards, for confirmation. -/
theorem blockhash_fetch_position_by_pipeline :
    (∀ (kp : Keypair) (env : Mayan.Env) (dest : String) (amt : Amount)
        (q : Mayan.Quote) (rest : List Mayan.Quote) (tx bh sig : String),
        env.quoteResult = .ok (q :: rest) → env.swapResult = .ok (some tx) →
        env.txWellFormed = true → env.blockhashResult = .ok bh →
        env.submitResult = .ok sig → env.confirmResult = .ok () →
      (Mayan.executeCrossChainSwap (some kp) env dest amt).2 =
        [.fetchQuote, .fetchSwapTx, .fetchBlockhash, .sign, .submit, .confirm]) ∧
    (∀ (kp : Keypair) (env : Mayan.JupiterEnv) (mintIn mintOut : String)
        (amt slippage : Nat) (jq : Mayan.JupiterQuote) (tx sig : String),
        env.quoteResult = .ok jq → env.swapResult = .ok tx →
        env.txWellFormed = true → env.submitResult = .ok sig →
        env.blockhashResult = .ok () → env.confirmResult = .ok () →
      (Mayan.swap (some kp) env mintIn mintOut amt slippage).2 =
        [.fetchQuote, .fetchSwapTx, .sign, .submit, .fetchBlockhash, .confirm]) := by
  constructor
  · intro kp env dest amt q rest tx bh sig hq hs hw hbh hsub hc
    simp [Mayan.executeCrossChainSwap, hq, hs, hw, hbh, hsub, hc]
  · intro kp env mintIn mintOut amt slippage jq tx sig hq hs hw hsub hbh hc
    simp [Mayan.swap, hq, hs, hw, hsub, hbh, hc]

/-- Witness for C7 at the all-success bridge and native-swap environments. -/
theorem blockhash_fetch_position_by_pipeline_witness :
    (Mayan.executeCrossChainSwap (some kp0) mayanHappyEnv "0xBase" (4/10)).2 =
      [.fetchQuote, .fetchSwapTx, .fetchBlockhash, .sign, .submit, .confirm] ∧
    (Mayan.swap (some kp0) jupiterHappyEnv "mintIn" "mintOut" 1000000000 50).2 =
      [.fetchQuote, .fetchSwapTx, .sign, .submit, .fetchBlockhash, .confirm] :=
  ⟨blockhash_fetch_position_by_pipeline.1 kp0 mayanHappyEnv "0xBase" (4/10)
      ⟨"Mayan", some 8, 7⟩ [] "AQID" "bh" "sig" rfl rfl rfl rfl rfl rfl,
   blockhash_fetch_position_by_pipeline.2 kp0 jupiterHappyEnv "mintIn" "mintOut"
      1000000000 50 ⟨95⟩ "AQID" "jupSig" rfl rfl rfl rfl rfl rfl⟩

end Automaton
